import Mathlib

/-!
Verification of the Fitai backend (server.js): the GarminDB subprocess bridge,
the in-memory metrics cache with timer-based eviction, the fallback data
generator, the CrewAI agent bridge, and the HTTP handlers built on them.

The JavaScript is embedded shallowly:
- JSON documents become the inductive `JVal`.
- The outcome of a spawned child process (which of the `close` event or the
  timeout timer settles the promise first, the exit code, whether the captured
  stdout parses as JSON, the captured stderr) becomes `ProcOutcome`; the
  result of `JSON.parse` on the captured stdout is carried as an
  `Option JVal` oracle.
- The six `Math.random()` draws of `getFallbackData` become the `RandDraws` record
  of bounded naturals: `Math.floor(Math.random() * k)` is exactly an arbitrary
  element of `Fin k`.
- Wall-clock instants are naturals (milliseconds since epoch);
  `Date.toDateString` is modelled as the calendar-day index rendered as a
  string, `Date.toISOString` as an injective rendering of the instant.
- The global `garminCache` object plus the pending `setTimeout` deletions
  become `ServerState`; processing all due timers before handling a request
  (the Node event loop runs due timer callbacks first) is `fireDueTimers`.
- Promise settlement is `Except String JVal`: `Except.ok` for `resolve`,
  `Except.error` for `reject` with the rejection message.
-/

/-! ## String containment (JavaScript `String.includes`) -/

/-- Model of character-list prefix testing, used to build substring search. -/
def prefAux : List Char → List Char → Bool
  | [], _ => true
  | _ :: _, [] => false
  | a :: s, b :: t => a == b && prefAux s t

/-- Substring search on character lists: the needle occurs contiguously in the hay. -/
def inclAux (needle : List Char) : List Char → Bool
  | [] => needle.isEmpty
  | b :: t => prefAux needle (b :: t) || inclAux needle t

/-- Model of JavaScript `hay.includes(needle)`. -/
def strIncl (hay needle : String) : Bool := inclAux needle.data hay.data

/-! ## JSON values -/

/-- A JSON document, as produced by `JSON.parse` and consumed by `res.json`. -/
inductive JVal where
  | null
  | bool (b : Bool)
  | num (n : Int)
  | str (s : String)
  | arr (xs : List JVal)
  | obj (fields : List (String × JVal))

/-- Property read `v[k]` on a JSON object (first binding wins, as in a JS object
where keys are unique; `undefined` is `none`). -/
def JVal.get (v : JVal) (k : String) : Option JVal :=
  match v with
  | .obj fields => fields.lookup k
  | _ => none

/-- JavaScript truthiness of a value, as tested by `if (garminCache[cacheKey])`. -/
def JVal.truthy : JVal → Bool
  | .null => false
  | .bool b => b
  | .num n => n != 0
  | .str s => s != ""
  | .arr _ => true
  | .obj _ => true

/-- Association-list update: replace the binding in place if the key exists,
append otherwise (JS property assignment). -/
def setAssoc : List (String × JVal) → String → JVal → List (String × JVal)
  | [], k, v => [(k, v)]
  | (a, b) :: t, k, v => if a = k then (a, v) :: t else (a, b) :: setAssoc t k v

/-- Property write `v[k] = x` on a JSON object. -/
def JVal.setField (v : JVal) (k : String) (x : JVal) : JVal :=
  match v with
  | .obj fields => .obj (setAssoc fields k x)
  | other => other

/-- The JS strict comparison `v[k] === s` against a string literal. -/
def JVal.isStrField (v : JVal) (k s : String) : Bool :=
  match v.get k with
  | some (.str t) => t == s
  | _ => false

/-! ## Time -/

/-- Milliseconds per calendar day. -/
def msPerDay : Nat := 86400000

/-- The cache lifetime, the literal `1800000` (30 minutes) passed to `setTimeout`
in `getLatestMetrics`. -/
def ttlMs : Nat := 1800000

/-- Model of `new Date().toDateString()`: determined exactly by the calendar
day of the instant, distinct for distinct days. -/
def toDateString (t : Nat) : String := toString (t / msPerDay)

/-- Model of `new Date().toISOString()`: an injective rendering of the instant. -/
def toISOString (t : Nat) : String := "iso:" ++ toString t

/-- The cache key built in `getLatestMetrics`:
the template literal `metrics_${userId}_${new Date().toDateString()}`. -/
def mkCacheKey (userId : String) (now : Nat) : String :=
  "metrics_" ++ userId ++ "_" ++ toDateString now

/-! ## Fallback generator (`GarminDBService.getFallbackData`) -/

/-- The six `Math.random()` draws made by `getFallbackData`, in source order:
`Math.floor(Math.random() * k)` is an arbitrary element of `Fin k`. -/
structure RandDraws where
  stepsR : Fin 5000
  hrR : Fin 20
  sleepR : Fin 30
  stressR : Fin 40
  batteryR : Fin 40
  restR : Fin 15

/-- `GarminDBService.getFallbackData(action)`: the demo-data table, indexed by
action, with `fallbackData[action] || { error: 'Unknown action' }`. -/
def getFallbackData (action : String) (rnd : RandDraws) (now : Nat) : JVal :=
  if action = "get_latest_metrics" then
    JVal.obj [
      ("steps", .num ((5000 + rnd.stepsR.val : Nat) : Int)),
      ("averageHeartRate", .num ((70 + rnd.hrR.val : Nat) : Int)),
      ("sleepScore", .num ((70 + rnd.sleepR.val : Nat) : Int)),
      ("stressLevel", .num ((20 + rnd.stressR.val : Nat) : Int)),
      ("bodyBattery", .num ((60 + rnd.batteryR.val : Nat) : Int)),
      ("restingHeartRate", .num ((55 + rnd.restR.val : Nat) : Int)),
      ("lastActivity", .obj [
        ("activityName", .str "Morning Walk"),
        ("sport", .str "walking"),
        ("distance", .num 3200),
        ("calories", .num 180)]),
      ("recoveryStatus", .str "Demo Mode - Good Recovery"),
      ("recoveryAdvice", .str "This is demo data. Connect your Garmin device for real insights."),
      ("timestamp", .str (toISOString now)),
      ("dataSource", .str "fallback")]
  else if action = "sync_data" then
    JVal.obj [
      ("success", .bool false),
      ("message", .str "GarminDB not available - using demo data"),
      ("lastSync", .str (toISOString now))]
  else if action = "get_weekly_summary" then
    JVal.obj [
      ("weekly_steps", .arr [
        .arr [.str "2024-01-15", .num 8500],
        .arr [.str "2024-01-16", .num 12000],
        .arr [.str "2024-01-17", .num 6200],
        .arr [.str "2024-01-18", .num 9800],
        .arr [.str "2024-01-19", .num 11500],
        .arr [.str "2024-01-20", .num 7300],
        .arr [.str "2024-01-21", .num 10200]]),
      ("activity_count", .num 4),
      ("avg_distance", .num 5000),
      ("total_calories", .num 1200),
      ("period", .str "Last 7 days (Demo)")]
  else
    JVal.obj [("error", .str "Unknown action")]

/-! ## Subprocess outcomes and the two bridges -/

/-- Observable outcome of one spawned child process, as seen by the promise:
either the `close` event settles first (with the exit code, the `JSON.parse`
result of the accumulated stdout, and the accumulated stderr), or the timeout
timer fires first, kills the process, and settles. -/
inductive ProcOutcome where
  | exited (code : Nat) (parsed : Option JVal) (stderr : String)
  | timedOut

/-- The three failure modes of a bridge invocation: non-zero exit code,
stdout that fails to parse as JSON, or timeout. -/
def isFailure : ProcOutcome → Bool
  | .exited code parsed _ => code != 0 || parsed.isNone
  | .timedOut => true

/-- `GarminDBService.callGarminDBService(action, params)`: exit code 0 with
parsable stdout resolves the parsed document; a parse error, a non-zero exit,
or the 15-second timeout each resolve `getFallbackData(action)`. The promise
is never rejected. -/
def callGarminDBService (action : String) (o : ProcOutcome) (rnd : RandDraws) (now : Nat) :
    Except String JVal :=
  match o with
  | .exited code parsed _ =>
    if code = 0 then
      match parsed with
      | some response => .ok response
      | none => .ok (getFallbackData action rnd now)
    else .ok (getFallbackData action rnd now)
  | .timedOut => .ok (getFallbackData action rnd now)

/-- Whether a promise settlement is a resolution (not a rejection). -/
def exceptIsOk : Except String JVal → Bool
  | .ok _ => true
  | .error _ => false

/-! ## Server state: the cache object and the pending deletion timers -/

/-- The mutable server state: the global `garminCache` object (an association
list keyed by cache-key strings) and the pending `setTimeout` deletions
scheduled by `getLatestMetrics`, each recorded as (firing instant, key). -/
structure ServerState where
  cache : List (String × JVal)
  timers : List (Nat × String)

/-- Property assignment `garminCache[cacheKey] = metrics`: wholesale replace. -/
def cacheSet (k : String) (v : JVal) (c : List (String × JVal)) : List (String × JVal) :=
  (k, v) :: c.filter (fun kv => !(kv.1 == k))

/-- The timers whose firing instant has been reached by `now`. -/
def dueTimers (now : Nat) (timers : List (Nat × String)) : List (Nat × String) :=
  timers.filter (fun p => decide (p.1 ≤ now))

/-- Run every due `setTimeout (() => delete garminCache[cacheKey])` callback:
each due timer deletes its key from the cache and leaves the pending list.
The Node event loop runs due timer callbacks before handling a request. -/
def fireDueTimers (now : Nat) (st : ServerState) : ServerState :=
  { cache := st.cache.filter (fun kv => !((dueTimers now st.timers).any (fun q => q.2 == kv.1))),
    timers := st.timers.filter (fun p => !(decide (p.1 ≤ now))) }

/-- Result of one `getLatestMetrics` call: the returned document, the state
after the call, and whether the GarminDB bridge was invoked (the cache-hit
path returns before `callGarminDBService`; the other paths call it). -/
structure MetricsCallResult where
  response : JVal
  state : ServerState
  bridgeInvoked : Bool

/-- The cache-miss path of `getLatestMetrics`: await the bridge, store the
result under `cacheKey`, schedule its deletion 30 minutes out. The `catch`
branch (return fallback without caching) handles a rejected promise. -/
def getLatestMetricsFetch (st : ServerState) (cacheKey : String) (o : ProcOutcome)
    (rnd : RandDraws) (now : Nat) : MetricsCallResult :=
  match callGarminDBService "get_latest_metrics" o rnd now with
  | .ok metrics =>
    ⟨metrics,
      ⟨cacheSet cacheKey metrics st.cache, (now + ttlMs, cacheKey) :: st.timers⟩,
      true⟩
  | .error _ => ⟨getFallbackData "get_latest_metrics" rnd now, st, true⟩

/-- `GarminDBService.getLatestMetrics(userId)`: return a truthy cached value
for the key `metrics_${userId}_${toDateString(now)}` unchanged, else fetch. -/
def getLatestMetrics (st : ServerState) (userId : String) (now : Nat) (o : ProcOutcome)
    (rnd : RandDraws) : MetricsCallResult :=
  match st.cache.lookup (mkCacheKey userId now) with
  | some v =>
    if v.truthy then ⟨v, st, false⟩
    else getLatestMetricsFetch st (mkCacheKey userId now) o rnd now
  | none => getLatestMetricsFetch st (mkCacheKey userId now) o rnd now

/-- One `getLatestMetrics` request handled at instant `now`: all due deletion
timers fire first, then the call runs. -/
def serveMetrics (st : ServerState) (userId : String) (now : Nat) (o : ProcOutcome)
    (rnd : RandDraws) : MetricsCallResult :=
  getLatestMetrics (fireDueTimers now st) userId now o rnd

/-- `GarminDBService.syncGarminData(userId)`: await the bridge, then delete
every cache key for which `key.includes(userId)` holds. The `catch` branch
(return fallback, skip the deletion loop) handles a rejected promise. -/
def syncGarminData (st : ServerState) (userId : String) (o : ProcOutcome) (rnd : RandDraws)
    (now : Nat) : JVal × ServerState :=
  match callGarminDBService "sync_data" o rnd now with
  | .ok result =>
    (result, { st with cache := st.cache.filter (fun kv => !(strIncl kv.1 userId)) })
  | .error _ => (getFallbackData "sync_data" rnd now, st)

/-- `GarminDBService.getWeeklySummary(userId)`: bridge call with a fallback
`catch` branch, no cache involvement. -/
def getWeeklySummary (userId : String) (o : ProcOutcome) (rnd : RandDraws) (now : Nat) : JVal :=
  match callGarminDBService "get_weekly_summary" o rnd now with
  | .ok v => v
  | .error _ => getFallbackData "get_weekly_summary" rnd now

/-- The object built in the `catch` branch of `checkGarminDBStatus`. -/
def checkStatusCatch : JVal :=
  JVal.obj [
    ("connected", .bool false),
    ("status", .str "GarminDB not available"),
    ("setup_required", .bool true),
    ("message", .str "Please install and configure GarminDB")]

/-- `GarminDBService.checkGarminDBStatus()`: bridge call for `check_status`
with a canned `catch` object. -/
def checkGarminDBStatus (o : ProcOutcome) (rnd : RandDraws) (now : Nat) : JVal :=
  match callGarminDBService "check_status" o rnd now with
  | .ok v => v
  | .error _ => checkStatusCatch

/-! ## Agent bridge (`AgentService.callAgent`) and the HTTP handlers -/

/-- The payload object `{ request_type, data, message }` serialized and passed
to the agent program (`message` defaults to `null`). -/
def agentPayload (requestType : String) (data : JVal) (message : Option String) : JVal :=
  JVal.obj [
    ("request_type", .str requestType),
    ("data", data),
    ("message", match message with | some m => .str m | none => .null)]

/-- `AgentService.callAgent(requestType, data, message)`: the payload written
to the subprocess, paired with the promise settlement. Exit 0 with parsable
stdout resolves the parsed document; a parse failure rejects with a fixed
message, a non-zero exit rejects with the captured stderr appended, and the
30-second timeout kills the process and rejects with a fixed message. -/
def callAgent (requestType : String) (data : JVal) (message : Option String)
    (o : ProcOutcome) : JVal × Except String JVal :=
  (agentPayload requestType data message,
    match o with
    | .exited code parsed stderr =>
      if code = 0 then
        match parsed with
        | some response => .ok response
        | none => .error "Failed to parse agent response"
      else .error ("Agent process failed: " ++ stderr)
    | .timedOut => .error "Agent request timeout")

/-- An HTTP response: status code and JSON body (`res.json` alone is 200;
`res.status(500).json(...)` is 500). -/
structure HttpResponse where
  status : Nat
  body : JVal

/-- The single safe default insight returned by the `catch` branch of
`POST /agent/analyze`. -/
def systemInsight : JVal :=
  JVal.obj [
    ("title", .str "🤖 AI Coach Status"),
    ("content", .str "Your AI agents are getting ready! In the meantime, sync your Garmin data for personalized insights."),
    ("type", .str "info"),
    ("agent", .str "system")]

/-- The `POST /agent/analyze` handler: on resolution, `res.json(response)`;
on rejection, `res.status(500).json({ error, insights: [systemInsight] })`. -/
def analyzeHandler (requestType : String) (data : JVal) (o : ProcOutcome) : HttpResponse :=
  match (callAgent requestType data none o).2 with
  | .ok response => ⟨200, response⟩
  | .error _ =>
    ⟨500, .obj [("error", .str "Analysis failed"), ("insights", .arr [systemInsight])]⟩

/-- The canned body of the `catch` branch of `POST /agent/chat`. -/
def chatCannedReply : JVal :=
  JVal.obj [
    ("response", .str "I\u0027m getting ready to help you! Please make sure your Garmin data is synced and try again."),
    ("agent_type", .str "system")]

/-- The `POST /agent/chat` handler: destructures `{ message,
conversation_history }` from the body, fetches the latest metrics for context,
then calls `callAgent('chat', metrics, message)`. `conversationHistory` is
read from the body but never passed on. On rejection, 500 with a canned body. -/
def chatHandler (st : ServerState) (userId message : String)
    (conversationHistory : List JVal) (now : Nat) (oG : ProcOutcome) (rndG : RandDraws)
    (oA : ProcOutcome) : HttpResponse × ServerState :=
  let r := getLatestMetrics st userId now oG rndG
  match (callAgent "chat" r.response (some message) oA).2 with
  | .ok response => (⟨200, response⟩, r.state)
  | .error _ => (⟨500, chatCannedReply⟩, r.state)

/-- The payload the `POST /agent/chat` handler writes to the agent subprocess
(the first component of its `callAgent` invocation), as a function of the full
request body including the `conversation_history` the client supplied. -/
def chatBridgePayload (st : ServerState) (userId message : String)
    (conversationHistory : List JVal) (now : Nat) (oG : ProcOutcome) (rndG : RandDraws)
    (oA : ProcOutcome) : JVal :=
  (callAgent "chat" (getLatestMetrics st userId now oG rndG).response (some message) oA).1

/-- The demo notice appended by `GET /garmin/latest-metrics` to fallback data. -/
def demoNotice : String :=
  "This is demo data. To get real data: 1) Install GarminDB, 2) Sync your Garmin device, 3) Restart the server"

/-- The `GET /garmin/latest-metrics` handler: fetch, tag fallback data with a
demo notice, `res.json(metrics)` (status 200). Its `catch` branch would send
500, but `getLatestMetrics` never rejects. -/
def latestMetricsHandler (st : ServerState) (userId : String) (now : Nat)
    (o : ProcOutcome) (rnd : RandDraws) : HttpResponse × ServerState :=
  let r := getLatestMetrics st userId now o rnd
  let body :=
    if r.response.isStrField "dataSource" "fallback" then
      r.response.setField "demoNotice" (.str demoNotice)
    else r.response
  (⟨200, body⟩, r.state)

/-- A fixed assignment for the random draws, used to instantiate theorems. -/
def rnd0 : RandDraws := ⟨0, 0, 0, 0, 0, 0⟩

/-! ## Helper lemmas -/

theorem prefAux_self_append (s t : List Char) : prefAux s (s ++ t) = true := by
  induction s with
  | nil => rfl
  | cons a s ih => simp [prefAux, ih]

theorem inclAux_cons (n : List Char) (b : Char) (t : List Char)
    (h : inclAux n t = true) : inclAux n (b :: t) = true := by
  simp [inclAux, h]

theorem inclAux_append_left (n pre rest : List Char)
    (h : inclAux n rest = true) : inclAux n (pre ++ rest) = true := by
  induction pre with
  | nil => simpa using h
  | cons a p ih => exact inclAux_cons n a (p ++ rest) ih

theorem inclAux_self_append (n post : List Char) : inclAux n (n ++ post) = true := by
  cases n with
  | nil =>
    cases post with
    | nil => rfl
    | cons b t => simp [inclAux, prefAux]
  | cons a s =>
    have h := prefAux_self_append (a :: s) post
    rw [List.cons_append] at h
    simp [inclAux, h]

/-- A user id is always a substring of any of its own cache keys. -/
theorem strIncl_key (u d : String) : strIncl ("metrics_" ++ u ++ "_" ++ d) u = true := by
  show inclAux u.data (("metrics_" ++ u ++ "_" ++ d).data) = true
  have h : ("metrics_" ++ u ++ "_" ++ d).data
      = "metrics_".data ++ (u.data ++ ("_".data ++ d.data)) := by
    show ("metrics_".data ++ u.data ++ "_".data ++ d.data) = _
    simp [List.append_assoc]
  rw [h]
  exact inclAux_append_left _ _ _ (inclAux_self_append u.data ("_".data ++ d.data))

theorem lookup_head {β : Type} (k : String) (v : β) (l : List (String × β)) :
    List.lookup k ((k, v) :: l) = some v := by
  simp [List.lookup]

theorem lookup_filter_keep {β : Type} (k : String) (p : String × β → Bool)
    (l : List (String × β)) (h : ∀ v, p (k, v) = true) :
    (l.filter p).lookup k = l.lookup k := by
  induction l with
  | nil => rfl
  | cons kv t ih =>
    obtain ⟨a, b⟩ := kv
    by_cases hak : k = a
    · subst hak
      simp [List.filter_cons, h b, List.lookup]
    · rw [List.filter_cons]
      have hne : (k == a) = false := by simp [hak]
      cases hp : p (a, b) <;> simp [List.lookup, hne, ih, hp]

theorem lookup_filter_drop {β : Type} (k : String) (p : String × β → Bool)
    (l : List (String × β)) (h : ∀ v, p (k, v) = false) :
    (l.filter p).lookup k = none := by
  induction l with
  | nil => rfl
  | cons kv t ih =>
    obtain ⟨a, b⟩ := kv
    by_cases hak : k = a
    · subst hak
      simp [List.filter_cons, h b, ih]
    · rw [List.filter_cons]
      have hne : (k == a) = false := by simp [hak]
      cases hp : p (a, b) <;> simp [List.lookup, hne, ih, hp]

/-- The cache-hit path: a truthy cached value is returned as is, the state is
untouched, the bridge is not invoked. -/
theorem getLatestMetrics_hit (st : ServerState) (userId : String) (now : Nat)
    (o : ProcOutcome) (rnd : RandDraws) (v : JVal)
    (h : st.cache.lookup (mkCacheKey userId now) = some v) (ht : v.truthy = true) :
    getLatestMetrics st userId now o rnd = ⟨v, st, false⟩ := by
  simp [getLatestMetrics, h, ht]

/-- The cache-miss path delegates to the fetch branch. -/
theorem getLatestMetrics_miss (st : ServerState) (userId : String) (now : Nat)
    (o : ProcOutcome) (rnd : RandDraws)
    (h : st.cache.lookup (mkCacheKey userId now) = none) :
    getLatestMetrics st userId now o rnd
      = getLatestMetricsFetch st (mkCacheKey userId now) o rnd now := by
  simp [getLatestMetrics, h]

/-- Every failure mode of the GarminDB bridge resolves with the fallback data
for the action. -/
theorem callGarminDB_failure (action : String) (o : ProcOutcome) (rnd : RandDraws)
    (now : Nat) (h : isFailure o = true) :
    callGarminDBService action o rnd now = .ok (getFallbackData action rnd now) := by
  cases o with
  | timedOut => rfl
  | exited code parsed stderr =>
    by_cases hc : code = 0
    · subst hc
      simp only [isFailure, bne_self_eq_false, Bool.false_or] at h
      cases parsed with
      | none => rfl
      | some v => simp [Option.isNone] at h
    · simp [callGarminDBService, hc]

/-- The GarminDB bridge promise always resolves, never rejects. -/
theorem callGarminDB_isOk (action : String) (o : ProcOutcome) (rnd : RandDraws)
    (now : Nat) : exceptIsOk (callGarminDBService action o rnd now) = true := by
  cases o with
  | timedOut => rfl
  | exited code parsed stderr =>
    by_cases hc : code = 0
    · subst hc
      cases parsed <;> rfl
    · simp [callGarminDBService, exceptIsOk, hc]

/-- Always-resolution in existential form. -/
theorem callGarminDB_exists_ok (action : String) (o : ProcOutcome) (rnd : RandDraws)
    (now : Nat) : ∃ v, callGarminDBService action o rnd now = .ok v := by
  have h := callGarminDB_isOk action o rnd now
  cases hc : callGarminDBService action o rnd now with
  | ok v => exact ⟨v, rfl⟩
  | error e => rw [hc] at h; simp [exceptIsOk] at h

/-- Every failure mode of the agent bridge rejects the promise. -/
theorem callAgent_failure (requestType : String) (data : JVal) (message : Option String)
    (o : ProcOutcome) (h : isFailure o = true) :
    ∃ e, (callAgent requestType data message o).2 = .error e := by
  cases o with
  | timedOut => exact ⟨"Agent request timeout", rfl⟩
  | exited code parsed stderr =>
    by_cases hc : code = 0
    · subst hc
      simp only [isFailure, bne_self_eq_false, Bool.false_or] at h
      cases parsed with
      | none => exact ⟨"Failed to parse agent response", rfl⟩
      | some v => simp [Option.isNone] at h
    · exact ⟨"Agent process failed: " ++ stderr, by simp [callAgent, hc]⟩

/-! ## Claim C1 -/

/-- Claim C1, counterexample: a GarminDB Bridge invocation whose process exits
with code 1 (stderr captured) settles with a resolution carrying a
success-shaped fallback payload — not an `Err(NonZeroExit, stderr)` result as
the claim states. -/
theorem c1_counterexample :
    exceptIsOk (callGarminDBService "sync_data" (.exited 1 none "boom") rnd0 0) = true
    ∧ callGarminDBService "sync_data" (.exited 1 none "boom") rnd0 0
      = .ok (JVal.obj [
          ("success", .bool false),
          ("message", .str "GarminDB not available - using demo data"),
          ("lastSync", .str (toISOString 0))]) :=
  ⟨rfl, rfl⟩

/-- Claim C1, amended: the GarminDB bridge resolves every failure mode
(non-zero exit, unparsable stdout, timeout) with the fallback data for the
action, never a typed error; only the agent bridge turns the failure modes
into typed rejections: a non-zero exit rejects with the captured stderr
appended to a fixed prefix, unparsable output rejects with a fixed
parse-failure message, and timeout rejects with a fixed timeout message. -/
theorem c1_bridge_failure_modes :
    (∀ (action : String) (o : ProcOutcome) (rnd : RandDraws) (now : Nat),
      isFailure o = true →
      callGarminDBService action o rnd now = .ok (getFallbackData action rnd now))
    ∧ (∀ (rt : String) (data : JVal) (msg : Option String) (code : Nat)
        (parsed : Option JVal) (stderr : String),
      code ≠ 0 →
      (callAgent rt data msg (.exited code parsed stderr)).2
        = .error ("Agent process failed: " ++ stderr))
    ∧ (∀ (rt : String) (data : JVal) (msg : Option String) (stderr : String),
      (callAgent rt data msg (.exited 0 none stderr)).2
        = .error "Failed to parse agent response")
    ∧ (∀ (rt : String) (data : JVal) (msg : Option String),
      (callAgent rt data msg .timedOut).2 = .error "Agent request timeout") := by
  refine ⟨?_, ?_, ?_, ?_⟩
  · exact fun action o rnd now h => callGarminDB_failure action o rnd now h
  · intro rt data msg code parsed stderr hc
    simp [callAgent, hc]
  · intro rt data msg stderr
    rfl
  · intro rt data msg
    rfl

/-- Claim C1, witness: the amended theorem at concrete inputs. -/
theorem c1_witness :
    callGarminDBService "get_latest_metrics" (.exited 1 none "boom") rnd0 0
      = .ok (getFallbackData "get_latest_metrics" rnd0 0)
    ∧ (callAgent "chat" .null none (.exited 1 none "boom")).2
      = .error ("Agent process failed: " ++ "boom")
    ∧ (callAgent "chat" .null none (.exited 0 none "")).2
      = .error "Failed to parse agent response"
    ∧ (callAgent "chat" .null none .timedOut).2 = .error "Agent request timeout" :=
  ⟨c1_bridge_failure_modes.1 "get_latest_metrics" (.exited 1 none "boom") rnd0 0 rfl,
   c1_bridge_failure_modes.2.1 "chat" .null none 1 none "boom" (by decide),
   c1_bridge_failure_modes.2.2.1 "chat" .null none "",
   c1_bridge_failure_modes.2.2.2 "chat" .null none⟩

/-! ## Claim C9 -/

/-- Claim C9 (confirmed): every outcome of the randomized draws gives a
fallback metrics snapshot whose fields satisfy the documented bounds —
steps in 5000–10000, sleep score in 70–100, stress in 20–60, body battery in
60–100, resting heart rate in 55–70 — tagged `dataSource = "fallback"` with
the static demo-mode recovery status and advice. -/
theorem c9_fallback_bounds :
    ∀ (rnd : RandDraws) (now : Nat),
      (∃ s : Int, (getFallbackData "get_latest_metrics" rnd now).get "steps"
        = some (.num s) ∧ 5000 ≤ s ∧ s ≤ 10000)
      ∧ (∃ s : Int, (getFallbackData "get_latest_metrics" rnd now).get "sleepScore"
        = some (.num s) ∧ 70 ≤ s ∧ s ≤ 100)
      ∧ (∃ s : Int, (getFallbackData "get_latest_metrics" rnd now).get "stressLevel"
        = some (.num s) ∧ 20 ≤ s ∧ s ≤ 60)
      ∧ (∃ s : Int, (getFallbackData "get_latest_metrics" rnd now).get "bodyBattery"
        = some (.num s) ∧ 60 ≤ s ∧ s ≤ 100)
      ∧ (∃ s : Int, (getFallbackData "get_latest_metrics" rnd now).get "restingHeartRate"
        = some (.num s) ∧ 55 ≤ s ∧ s ≤ 70)
      ∧ (getFallbackData "get_latest_metrics" rnd now).get "dataSource"
        = some (.str "fallback")
      ∧ (getFallbackData "get_latest_metrics" rnd now).get "recoveryStatus"
        = some (.str "Demo Mode - Good Recovery")
      ∧ (getFallbackData "get_latest_metrics" rnd now).get "recoveryAdvice"
        = some (.str "This is demo data. Connect your Garmin device for real insights.") := by
  intro rnd now
  have h1 := rnd.stepsR.isLt
  have h3 := rnd.sleepR.isLt
  have h4 := rnd.stressR.isLt
  have h5 := rnd.batteryR.isLt
  have h6 := rnd.restR.isLt
  refine ⟨⟨_, rfl, ?_, ?_⟩, ⟨_, rfl, ?_, ?_⟩, ⟨_, rfl, ?_, ?_⟩, ⟨_, rfl, ?_, ?_⟩,
    ⟨_, rfl, ?_, ?_⟩, rfl, rfl, rfl⟩ <;> omega

/-! ## Claim C10 -/

/-- Claim C10 (confirmed): the `callGarminDBService` promise always resolves
and never rejects — every failure mode resolves with the fallback data for the
action — so the `catch` branches of the service wrappers are unreachable (each
wrapper takes its `Except.ok` arm), and for an action with no fallback table
entry, such as `check_status`, a failure resolves to the object
`{ error: 'Unknown action' }`, which `checkGarminDBStatus` then returns. -/
theorem c10_bridge_always_resolves :
    (∀ (action : String) (o : ProcOutcome) (rnd : RandDraws) (now : Nat),
      exceptIsOk (callGarminDBService action o rnd now) = true)
    ∧ (∀ (action : String) (o : ProcOutcome) (rnd : RandDraws) (now : Nat),
      isFailure o = true →
      callGarminDBService action o rnd now = .ok (getFallbackData action rnd now))
    ∧ (∀ (rnd : RandDraws) (now : Nat),
      getFallbackData "check_status" rnd now = .obj [("error", .str "Unknown action")])
    ∧ (∀ (o : ProcOutcome) (rnd : RandDraws) (now : Nat),
      isFailure o = true →
      checkGarminDBStatus o rnd now = .obj [("error", .str "Unknown action")])
    ∧ (∀ (o : ProcOutcome) (rnd : RandDraws) (now : Nat), ∃ v,
      callGarminDBService "check_status" o rnd now = .ok v
        ∧ checkGarminDBStatus o rnd now = v)
    ∧ (∀ (userId : String) (o : ProcOutcome) (rnd : RandDraws) (now : Nat),
      isFailure o = true →
      getWeeklySummary userId o rnd now = getFallbackData "get_weekly_summary" rnd now) := by
  refine ⟨callGarminDB_isOk, callGarminDB_failure, fun rnd now => rfl, ?_, ?_, ?_⟩
  · intro o rnd now h
    rw [checkGarminDBStatus, callGarminDB_failure "check_status" o rnd now h]
    rfl
  · intro o rnd now
    obtain ⟨v, hv⟩ := callGarminDB_exists_ok "check_status" o rnd now
    exact ⟨v, hv, by rw [checkGarminDBStatus, hv]⟩
  · intro userId o rnd now h
    rw [getWeeklySummary, callGarminDB_failure "get_weekly_summary" o rnd now h]

/-- Claim C10, witness: the theorem at concrete inputs, including a failing
`check_status` invocation resolving the unknown-action object. -/
theorem c10_witness :
    exceptIsOk (callGarminDBService "check_status" .timedOut rnd0 0) = true
    ∧ callGarminDBService "check_status" .timedOut rnd0 0
      = .ok (getFallbackData "check_status" rnd0 0)
    ∧ getFallbackData "check_status" rnd0 0 = .obj [("error", .str "Unknown action")]
    ∧ checkGarminDBStatus .timedOut rnd0 0 = .obj [("error", .str "Unknown action")]
    ∧ (∃ v, callGarminDBService "check_status" .timedOut rnd0 0 = .ok v
        ∧ checkGarminDBStatus .timedOut rnd0 0 = v)
    ∧ getWeeklySummary "demo-user" .timedOut rnd0 0
      = getFallbackData "get_weekly_summary" rnd0 0 :=
  ⟨c10_bridge_always_resolves.1 "check_status" .timedOut rnd0 0,
   c10_bridge_always_resolves.2.1 "check_status" .timedOut rnd0 0 rfl,
   c10_bridge_always_resolves.2.2.1 rnd0 0,
   c10_bridge_always_resolves.2.2.2.1 .timedOut rnd0 0 rfl,
   c10_bridge_always_resolves.2.2.2.2.1 .timedOut rnd0 0,
   c10_bridge_always_resolves.2.2.2.2.2 "demo-user" .timedOut rnd0 0 rfl⟩

/-! ## Claim C2 -/

/-- Claim C2, counterexample: after a `getLatestMetrics` call on an empty
cache in which the Bridge fails (timeout), the cache holds the
fallback-tagged snapshot under the key for that user and day — the claim
states it holds no entry. -/
theorem c2_counterexample :
    (getLatestMetrics ⟨[], []⟩ "u1" 0 .timedOut rnd0).state.cache.lookup "metrics_u1_0"
      = some (getFallbackData "get_latest_metrics" rnd0 0)
    ∧ (getFallbackData "get_latest_metrics" rnd0 0).get "dataSource"
      = some (.str "fallback") :=
  ⟨rfl, rfl⟩

/-- Claim C2, amended: a fallback snapshot produced during a Bridge failure IS
written to the cache — `callGarminDBService` resolves fallback data instead of
rejecting, so the result flows through the success path of `getLatestMetrics`
and is stored under the key for that user and day, and requests during an
outage within the TTL then reuse the cached fallback snapshot. -/
theorem c2_fallback_cached :
    ∀ (st : ServerState) (userId : String) (now : Nat) (o : ProcOutcome)
      (rnd : RandDraws),
      isFailure o = true →
      st.cache.lookup (mkCacheKey userId now) = none →
      (getLatestMetrics st userId now o rnd).state.cache.lookup (mkCacheKey userId now)
        = some (getFallbackData "get_latest_metrics" rnd now)
      ∧ (getFallbackData "get_latest_metrics" rnd now).get "dataSource"
        = some (.str "fallback") := by
  intro st userId now o rnd hf hmiss
  rw [getLatestMetrics_miss st userId now o rnd hmiss]
  rw [getLatestMetricsFetch, callGarminDB_failure "get_latest_metrics" o rnd now hf]
  exact ⟨lookup_head _ _ _, rfl⟩

/-- Claim C2, witness: the amended theorem at concrete inputs. -/
theorem c2_witness :
    (getLatestMetrics ⟨[], []⟩ "u2" 0 (.exited 2 none "err") rnd0).state.cache.lookup
        (mkCacheKey "u2" 0)
      = some (getFallbackData "get_latest_metrics" rnd0 0)
    ∧ (getFallbackData "get_latest_metrics" rnd0 0).get "dataSource"
      = some (.str "fallback") :=
  c2_fallback_cached ⟨[], []⟩ "u2" 0 (.exited 2 none "err") rnd0 rfl rfl

/-! ## Claim C3 -/

/-- Claim C3, counterexample: with a failing agent process, `POST
/agent/analyze` responds with HTTP status 500 — a failure status — and so does
`POST /agent/chat`; the claim states the HTTP caller never receives a failure
status for a transient upstream error. -/
theorem c3_counterexample :
    (analyzeHandler "daily_insights" (.obj []) (.exited 1 none "crash")).status = 500
    ∧ (chatHandler ⟨[], []⟩ "u1" "hi" [] 0 .timedOut rnd0 .timedOut).1.status = 500 :=
  ⟨rfl, rfl⟩

/-- Claim C3, amended: a transient upstream error is fully masked only on the
Metrics side — `GET /garmin/latest-metrics` always responds 200, substituting
fallback data. On the Agent side the handlers respond with HTTP status 500,
whose body still carries the renderable canned content: `analyze` a single
insight list tagged `agent: system`, `chat` a canned reply tagged
`agent_type: system`. -/
theorem c3_error_substitution :
    (∀ (st : ServerState) (userId : String) (now : Nat) (o : ProcOutcome)
        (rnd : RandDraws),
      (latestMetricsHandler st userId now o rnd).1.status = 200)
    ∧ (∀ (requestType : String) (data : JVal) (o : ProcOutcome),
      isFailure o = true →
      analyzeHandler requestType data o
        = ⟨500, .obj [("error", .str "Analysis failed"),
            ("insights", .arr [systemInsight])]⟩)
    ∧ (∀ (st : ServerState) (userId message : String) (hist : List JVal) (now : Nat)
        (oG : ProcOutcome) (rndG : RandDraws) (oA : ProcOutcome),
      isFailure oA = true →
      (chatHandler st userId message hist now oG rndG oA).1 = ⟨500, chatCannedReply⟩) := by
  refine ⟨fun st userId now o rnd => rfl, ?_, ?_⟩
  · intro requestType data o h
    obtain ⟨e, he⟩ := callAgent_failure requestType data none o h
    simp [analyzeHandler, he]
  · intro st userId message hist now oG rndG oA h
    obtain ⟨e, he⟩ :=
      callAgent_failure "chat" (getLatestMetrics st userId now oG rndG).response
        (some message) oA h
    simp [chatHandler, he]

/-- Claim C3, witness: the amended theorem at concrete inputs. -/
theorem c3_witness :
    (latestMetricsHandler ⟨[], []⟩ "u1" 0 .timedOut rnd0).1.status = 200
    ∧ analyzeHandler "daily_insights" (.obj []) .timedOut
      = ⟨500, .obj [("error", .str "Analysis failed"),
          ("insights", .arr [systemInsight])]⟩
    ∧ (chatHandler ⟨[], []⟩ "u1" "hi" [] 0 (.exited 0 (some (.obj [])) "") rnd0
        .timedOut).1 = ⟨500, chatCannedReply⟩ :=
  ⟨c3_error_substitution.1 ⟨[], []⟩ "u1" 0 .timedOut rnd0,
   c3_error_substitution.2.1 "daily_insights" (.obj []) .timedOut rfl,
   c3_error_substitution.2.2 ⟨[], []⟩ "u1" "hi" [] 0 (.exited 0 (some (.obj [])) "")
     rnd0 .timedOut rfl⟩

/-! ## Claim C4 -/

/-- Claim C4, counterexample: a `syncGarminData` call whose Bridge invocation
fails (timeout) still removes the existing cache entry for that user — the
claim states that on failure every existing cache entry is left unchanged. -/
theorem c4_counterexample :
    (syncGarminData ⟨[("metrics_u1_0", JVal.obj [("steps", JVal.num 1)])], []⟩
        "u1" .timedOut rnd0 5).2.cache = []
    ∧ isFailure ProcOutcome.timedOut = true :=
  ⟨rfl, rfl⟩

/-- Claim C4, amended: `syncGarminData` removes the user's cache entries on
every call, Bridge failure included — the Bridge resolves failures as fallback
data, so the invalidation loop after the `await` always runs and the `catch`
branch that would skip it is unreachable. On failure the returned payload is
the fallback sync report (`success: false`), so the failure is reported, but
the stale cache is NOT preserved. -/
theorem c4_sync_invalidates_always :
    (∀ (st : ServerState) (userId : String) (o : ProcOutcome) (rnd : RandDraws)
        (now : Nat),
      isFailure o = true →
      (syncGarminData st userId o rnd now).1 = getFallbackData "sync_data" rnd now)
    ∧ (∀ (st : ServerState) (userId d : String) (o : ProcOutcome) (rnd : RandDraws)
        (now : Nat),
      (syncGarminData st userId o rnd now).2.cache.lookup
        ("metrics_" ++ userId ++ "_" ++ d) = none) := by
  constructor
  · intro st userId o rnd now h
    rw [syncGarminData, callGarminDB_failure "sync_data" o rnd now h]
  · intro st userId d o rnd now
    obtain ⟨v, hv⟩ := callGarminDB_exists_ok "sync_data" o rnd now
    rw [syncGarminData, hv]
    exact lookup_filter_drop _ _ _ (fun w => by simp [strIncl_key userId d])

/-- Claim C4, witness: the amended theorem at concrete inputs — a failing sync
reports the fallback payload yet still deletes the user's entry. -/
theorem c4_witness :
    (syncGarminData ⟨[("metrics_u3_0", JVal.obj [("steps", JVal.num 9)])], []⟩
        "u3" .timedOut rnd0 5).1 = getFallbackData "sync_data" rnd0 5
    ∧ (syncGarminData ⟨[("metrics_u3_0", JVal.obj [("steps", JVal.num 9)])], []⟩
        "u3" .timedOut rnd0 5).2.cache.lookup ("metrics_" ++ "u3" ++ "_" ++ "0")
      = none :=
  ⟨c4_sync_invalidates_always.1 ⟨[("metrics_u3_0", JVal.obj [("steps", JVal.num 9)])], []⟩
      "u3" .timedOut rnd0 5 rfl,
   c4_sync_invalidates_always.2 ⟨[("metrics_u3_0", JVal.obj [("steps", JVal.num 9)])], []⟩
      "u3" "0" .timedOut rnd0 5⟩

/-! ## Claim C5 -/

/-- Claim C5, counterexample: a successful `syncGarminData` for user `u1`
removes the cache entry belonging to the distinct user `u12`, because the
invalidation predicate is `key.includes(userId)` — substring containment, not
equality of the key's user component. -/
theorem c5_counterexample :
    (syncGarminData ⟨[("metrics_u12_0", JVal.obj [("steps", JVal.num 2)])], []⟩
        "u1" (.exited 0 (some (JVal.obj [("success", JVal.bool true)])) "") rnd0 5).2.cache
      = [] :=
  rfl

/-- Claim C5, amended: the invalidation in `syncGarminData` removes exactly the
entries whose key CONTAINS `userId` as a substring: every entry whose key does
not contain `userId` survives unchanged, every key containing `userId` is
absent afterwards, and in particular the user's own keys
(`metrics_${userId}_${date}`) are all absent. Entries of a different user are
preserved only when `userId` does not occur inside their keys. -/
theorem c5_invalidate_substring :
    ∀ (st : ServerState) (userId : String) (o : ProcOutcome) (rnd : RandDraws)
      (now : Nat),
      (∀ k v, (k, v) ∈ st.cache → strIncl k userId = false →
        (k, v) ∈ (syncGarminData st userId o rnd now).2.cache)
      ∧ (∀ k, strIncl k userId = true →
        (syncGarminData st userId o rnd now).2.cache.lookup k = none)
      ∧ (∀ d, (syncGarminData st userId o rnd now).2.cache.lookup
          ("metrics_" ++ userId ++ "_" ++ d) = none) := by
  intro st userId o rnd now
  obtain ⟨v, hv⟩ := callGarminDB_exists_ok "sync_data" o rnd now
  rw [syncGarminData, hv]
  refine ⟨?_, ?_, ?_⟩
  · intro k w hmem hni
    exact List.mem_filter.mpr ⟨hmem, by simp [hni]⟩
  · intro k hk
    exact lookup_filter_drop _ _ _ (fun w => by simp [hk])
  · intro d
    exact lookup_filter_drop _ _ _ (fun w => by simp [strIncl_key userId d])

/-- Claim C5, witness: the amended theorem at concrete inputs — an unrelated
key survives a sync for `u1`, while the key of `u1` itself is removed. -/
theorem c5_witness :
    ("metrics_v9_0", JVal.num 7)
      ∈ (syncGarminData ⟨[("metrics_v9_0", JVal.num 7), ("metrics_u1_0", JVal.num 8)], []⟩
          "u1" .timedOut rnd0 5).2.cache
    ∧ (syncGarminData ⟨[("metrics_v9_0", JVal.num 7), ("metrics_u1_0", JVal.num 8)], []⟩
          "u1" .timedOut rnd0 5).2.cache.lookup "metrics_u1_0" = none :=
  ⟨(c5_invalidate_substring ⟨[("metrics_v9_0", JVal.num 7), ("metrics_u1_0", JVal.num 8)], []⟩
      "u1" .timedOut rnd0 5).1 "metrics_v9_0" (JVal.num 7) (by simp) rfl,
   by
    have h := (c5_invalidate_substring
      ⟨[("metrics_v9_0", JVal.num 7), ("metrics_u1_0", JVal.num 8)], []⟩
      "u1" .timedOut rnd0 5).2.1 "metrics_u1_0" rfl
    exact h⟩

/-! ## Claim C6 -/

/-- Firing due timers removes every cache entry targeted by a due timer. -/
theorem fire_due_lookup_none (st : ServerState) (now f : Nat) (k : String)
    (hmem : (f, k) ∈ st.timers) (hle : f ≤ now) :
    (fireDueTimers now st).cache.lookup k = none := by
  apply lookup_filter_drop
  intro v
  have hdue : (f, k) ∈ dueTimers now st.timers :=
    List.mem_filter.mpr ⟨hmem, by simpa using hle⟩
  have hany : (dueTimers now st.timers).any (fun q => q.2 == k) = true :=
    List.any_eq_true.mpr ⟨(f, k), hdue, by simp⟩
  simp [hany]

/-- Firing due timers preserves the lookup of a key no due timer targets. -/
theorem fire_keep_lookup (now : Nat) (st : ServerState) (k : String)
    (hno : ∀ q ∈ dueTimers now st.timers, (q.2 == k) = false) :
    (fireDueTimers now st).cache.lookup k = st.cache.lookup k := by
  apply lookup_filter_keep
  intro v
  have hany : (dueTimers now st.timers).any (fun q => q.2 == k) = false := by
    cases hA : (dueTimers now st.timers).any (fun q => q.2 == k) with
    | false => rfl
    | true =>
      obtain ⟨q, hq, hq2⟩ := List.any_eq_true.mp hA
      simp [hno q hq] at hq2
  simp [hany]

/-- Claim C6, counterexample: in a state where the deletion timer scheduled
for the only cache entry is overdue (instant 100, read at instant 200) but has
not yet fired, the `getLatestMetrics` lookup returns that entry and leaves the
state completely unchanged — the entry is neither treated as absent nor
removed as a side effect of the lookup, because the code performs no expiry
check and no removal on read. -/
theorem c6_counterexample :
    getLatestMetrics
        ⟨[("metrics_u1_0", JVal.obj [("steps", JVal.num 3)])], [(100, "metrics_u1_0")]⟩
        "u1" 200 .timedOut rnd0
      = ⟨JVal.obj [("steps", JVal.num 3)],
          ⟨[("metrics_u1_0", JVal.obj [("steps", JVal.num 3)])], [(100, "metrics_u1_0")]⟩,
          false⟩
    ∧ (100 : Nat) ≤ 200 :=
  ⟨rfl, by omega⟩

/-- Claim C6, amended: eviction is eager and timer-driven, not lazy on read —
the cache lookup in `getLatestMetrics` performs no expiry check and no
removal, returning any truthy stored entry with the state unchanged; expiry is
instead enforced by the deletion timer scheduled at insertion, so once the due
timers have fired, every key targeted by an expired timer is absent. -/
theorem c6_timer_eviction :
    (∀ (st : ServerState) (userId : String) (now : Nat) (o : ProcOutcome)
        (rnd : RandDraws) (v : JVal),
      st.cache.lookup (mkCacheKey userId now) = some v → v.truthy = true →
      getLatestMetrics st userId now o rnd = ⟨v, st, false⟩)
    ∧ (∀ (st : ServerState) (now f : Nat) (k : String),
      (f, k) ∈ st.timers → f ≤ now →
      (fireDueTimers now st).cache.lookup k = none) :=
  ⟨getLatestMetrics_hit,
   fun st now f k hmem hle => fire_due_lookup_none st now f k hmem hle⟩

/-- Claim C6, witness: the amended theorem at concrete inputs. -/
theorem c6_witness :
    getLatestMetrics
        ⟨[("metrics_u1_0", JVal.obj [("steps", JVal.num 3)])], [(100, "metrics_u1_0")]⟩
        "u1" 200 .timedOut rnd0
      = ⟨JVal.obj [("steps", JVal.num 3)],
          ⟨[("metrics_u1_0", JVal.obj [("steps", JVal.num 3)])], [(100, "metrics_u1_0")]⟩,
          false⟩
    ∧ (fireDueTimers 200
        ⟨[("metrics_u1_0", JVal.obj [("steps", JVal.num 3)])], [(100, "metrics_u1_0")]⟩).cache.lookup
        "metrics_u1_0" = none :=
  ⟨c6_timer_eviction.1
      ⟨[("metrics_u1_0", JVal.obj [("steps", JVal.num 3)])], [(100, "metrics_u1_0")]⟩
      "u1" 200 .timedOut rnd0 (JVal.obj [("steps", JVal.num 3)]) rfl rfl,
   c6_timer_eviction.2
      ⟨[("metrics_u1_0", JVal.obj [("steps", JVal.num 3)])], [(100, "metrics_u1_0")]⟩
      200 100 "metrics_u1_0" (by simp) (by omega)⟩

/-! ## Claim C7 -/

/-- Claim C7, counterexample: two `getLatestMetrics` calls 2 seconds apart —
far inside the 30-minute TTL window — that straddle midnight: the first
succeeds live and caches under day 0, the second reads under day 1, misses,
invokes the Bridge a second time, and returns a different snapshot. -/
theorem c7_counterexample :
    (serveMetrics ⟨[], []⟩ "u1" 86399000
        (.exited 0 (some (JVal.obj [("steps", JVal.num 8547)])) "") rnd0).response
      = JVal.obj [("steps", JVal.num 8547)]
    ∧ (serveMetrics (serveMetrics ⟨[], []⟩ "u1" 86399000
        (.exited 0 (some (JVal.obj [("steps", JVal.num 8547)])) "") rnd0).state
        "u1" 86401000 (.exited 0 (some (JVal.obj [("steps", JVal.num 1)])) "") rnd0).bridgeInvoked
      = true
    ∧ (serveMetrics (serveMetrics ⟨[], []⟩ "u1" 86399000
        (.exited 0 (some (JVal.obj [("steps", JVal.num 8547)])) "") rnd0).state
        "u1" 86401000 (.exited 0 (some (JVal.obj [("steps", JVal.num 1)])) "") rnd0).response
      = JVal.obj [("steps", JVal.num 1)]
    ∧ JVal.obj [("steps", JVal.num 1)] ≠ JVal.obj [("steps", JVal.num 8547)]
    ∧ 86401000 - 86399000 < ttlMs :=
  ⟨rfl, rfl, rfl, by simp, by decide⟩

/-- Claim C7, amended: two `getLatestMetrics` calls within the 30-minute TTL
window return the identical snapshot from the cache without a second Bridge
invocation PROVIDED both calls fall on the same calendar date (the cache key
embeds `toDateString`, so the TTL guarantee breaks across midnight) and no
deletion timer left over from an earlier insertion of the same key fires
between the two calls. -/
theorem c7_same_day_ttl_hit :
    ∀ (st : ServerState) (u : String) (t1 t2 : Nat) (snap : JVal) (e1 : String)
      (o2 : ProcOutcome) (rnd1 rnd2 : RandDraws),
      snap.truthy = true →
      (fireDueTimers t1 st).cache.lookup (mkCacheKey u t1) = none →
      t1 ≤ t2 →
      t2 < t1 + ttlMs →
      t1 / msPerDay = t2 / msPerDay →
      (∀ p ∈ st.timers, p.2 = mkCacheKey u t1 → t2 < p.1) →
      (serveMetrics st u t1 (.exited 0 (some snap) e1) rnd1).response = snap
      ∧ (serveMetrics (serveMetrics st u t1 (.exited 0 (some snap) e1) rnd1).state
          u t2 o2 rnd2).response = snap
      ∧ (serveMetrics (serveMetrics st u t1 (.exited 0 (some snap) e1) rnd1).state
          u t2 o2 rnd2).bridgeInvoked = false := by
  intro st u t1 t2 snap e1 o2 rnd1 rnd2 htr hmiss h12 httl hday hstale
  have hkey : mkCacheKey u t2 = mkCacheKey u t1 := by
    unfold mkCacheKey toDateString
    rw [← hday]
  have hcall : callGarminDBService "get_latest_metrics" (.exited 0 (some snap) e1) rnd1 t1
      = .ok snap := rfl
  have h1 : serveMetrics st u t1 (.exited 0 (some snap) e1) rnd1
      = ⟨snap,
          ⟨cacheSet (mkCacheKey u t1) snap (fireDueTimers t1 st).cache,
            (t1 + ttlMs, mkCacheKey u t1) :: (fireDueTimers t1 st).timers⟩,
          true⟩ := by
    unfold serveMetrics
    rw [getLatestMetrics_miss _ _ _ _ _ hmiss]
    unfold getLatestMetricsFetch
    rw [hcall]
  rw [h1]
  have hno : ∀ q ∈ dueTimers t2
      ((t1 + ttlMs, mkCacheKey u t1) :: (fireDueTimers t1 st).timers),
      (q.2 == mkCacheKey u t1) = false := by
    intro q hq
    obtain ⟨hqmem, hqle⟩ := List.mem_filter.mp hq
    have hqle2 : q.1 ≤ t2 := of_decide_eq_true hqle
    rcases List.mem_cons.mp hqmem with rfl | htl
    · exfalso
      have hc : t1 + ttlMs ≤ t2 := hqle2
      omega
    · have hq_st : q ∈ st.timers := (List.mem_filter.mp htl).1
      by_cases hqk : q.2 = mkCacheKey u t1
      · exfalso
        have := hstale q hq_st hqk
        omega
      · simp [hqk]
  have hlook2 : (fireDueTimers t2
      ⟨cacheSet (mkCacheKey u t1) snap (fireDueTimers t1 st).cache,
        (t1 + ttlMs, mkCacheKey u t1) :: (fireDueTimers t1 st).timers⟩).cache.lookup
      (mkCacheKey u t2) = some snap := by
    rw [hkey]
    rw [fire_keep_lookup t2
      ⟨cacheSet (mkCacheKey u t1) snap (fireDueTimers t1 st).cache,
        (t1 + ttlMs, mkCacheKey u t1) :: (fireDueTimers t1 st).timers⟩
      (mkCacheKey u t1) hno]
    exact lookup_head _ _ _
  refine ⟨rfl, ?_, ?_⟩
  · unfold serveMetrics
    rw [getLatestMetrics_hit _ _ _ _ _ _ hlook2 htr]
  · unfold serveMetrics
    rw [getLatestMetrics_hit _ _ _ _ _ _ hlook2 htr]

/-- Claim C7, witness: the amended theorem at concrete inputs — a live fetch
at instant 0 and a second call one minute later on the same day. -/
theorem c7_witness :
    (serveMetrics ⟨[], []⟩ "u1" 0
        (.exited 0 (some (JVal.obj [("steps", JVal.num 8547)])) "") rnd0).response
      = JVal.obj [("steps", JVal.num 8547)]
    ∧ (serveMetrics (serveMetrics ⟨[], []⟩ "u1" 0
        (.exited 0 (some (JVal.obj [("steps", JVal.num 8547)])) "") rnd0).state
        "u1" 60000 .timedOut rnd0).response = JVal.obj [("steps", JVal.num 8547)]
    ∧ (serveMetrics (serveMetrics ⟨[], []⟩ "u1" 0
        (.exited 0 (some (JVal.obj [("steps", JVal.num 8547)])) "") rnd0).state
        "u1" 60000 .timedOut rnd0).bridgeInvoked = false :=
  c7_same_day_ttl_hit ⟨[], []⟩ "u1" 0 60000 (JVal.obj [("steps", JVal.num 8547)]) ""
    .timedOut rnd0 rnd0 rfl rfl (by omega) (by decide) (by decide) (by simp)

/-! ## Claim C8 -/

/-- Claim C8 (refuted; supports the code-bug report): the payload the chat
handler writes to the agent subprocess contains the metrics snapshot and the
incoming message, but no part of the caller-supplied conversation history —
the payload is the same function of the request whatever history is supplied,
and it has no `conversation_history` field. The handler destructures
`conversation_history` from the request body and never passes it on. -/
theorem c8_chat_payload_drops_history :
    ∀ (st : ServerState) (userId message : String) (h1 h2 : List JVal) (now : Nat)
      (oG : ProcOutcome) (rndG : RandDraws) (oA : ProcOutcome),
      chatBridgePayload st userId message h1 now oG rndG oA
        = chatBridgePayload st userId message h2 now oG rndG oA
      ∧ (chatBridgePayload st userId message h1 now oG rndG oA).get "conversation_history"
        = none
      ∧ (chatBridgePayload st userId message h1 now oG rndG oA).get "request_type"
        = some (.str "chat")
      ∧ (chatBridgePayload st userId message h1 now oG rndG oA).get "message"
        = some (.str message)
      ∧ (chatBridgePayload st userId message h1 now oG rndG oA).get "data"
        = some (getLatestMetrics st userId now oG rndG).response :=
  fun _ _ _ _ _ _ _ _ _ => ⟨rfl, rfl, rfl, rfl, rfl⟩
